import Mathlib

/-
Verification development for the `units` systemd-application deployment tool.

The embedding models the lifecycle engine of `src/app.rs`:
  * filesystem paths are lists of components (`Path`);
  * the filesystem is the list of existing regular files;
  * external effects (running `systemctl`, copying files, removing files,
    prompting for confirmation) are recorded as an event trace, and their
    outcomes are supplied by an environment oracle (`Env`);
  * `process::Command::status()` is modelled by `Env.systemctl : List String →
    Option Bool`: `none` means the spawn itself failed (the `io::Error` case,
    which `?` propagates), `some b` means the command ran and `b` is
    `ExitStatus::success()`.
Fallible operations return `Except String α` paired with the emitted trace.
-/

namespace Units

/-- A filesystem path, as its list of components. -/
abbrev Path := List String

/-- `CONFIG_FILE_NAME` in `app.rs`. -/
def configFileName : String := "config.toml"

/-- `Path::strip_prefix` on component lists: succeeds exactly when `dir` is a
component-wise prefix of `p`, yielding the remaining components. -/
def stripUnder (dir p : Path) : Option Path :=
  if p.take dir.length == dir then some (p.drop dir.length) else none

/-- The `App` struct of `app.rs` (`app_dir` is the source tree, `systemd_dir`
the install target directory). -/
structure App where
  name : String
  app_dir : Path
  systemd_dir : Path
  use_user : Bool

/-- The two configuration fields the core consumes (`AppConfig`/`Systemd` in
`app.rs`). -/
structure AppConfig where
  install_location : Path
  use_user : Bool

/-- Ambient process state consulted by `App::new`: the current working
directory (against which the relative config path is resolved by
`fs::read_to_string`), the running executable's path (`env::current_exe`), and
the configuration reader (`none` = unreadable or unparsable). -/
structure SysEnv where
  cwd : Path
  exe_path : Path
  readConfig : Path → Option AppConfig

/-- `PathBuf::parent`: drops the last component; `none` when there is none. -/
def parentPath (p : Path) : Option Path :=
  if p.isEmpty then none else some p.dropLast

/-- `App::new`: reads `<name>/config.toml` — a relative path, hence resolved
against the current working directory — then sets `app_dir` to
`<parent of current_exe>/<name>`. -/
def App.new (sys : SysEnv) (name : String) : Except String App :=
  match sys.readConfig (sys.cwd ++ [name, configFileName]) with
  | none => Except.error ("Failed to find config file at "
      ++ String.intercalate "/" (sys.cwd ++ [name, configFileName]))
  | some config =>
    match parentPath sys.exe_path with
    | none => Except.error "Failed to find current directory"
    | some repo_dir =>
      Except.ok { name := name, app_dir := repo_dir ++ [name],
                  systemd_dir := config.install_location, use_user := config.use_user }

/-- One observable external effect. -/
inductive Event where
  /-- `process::Command::new("systemctl").args(args).status()` was invoked. -/
  | runSystemctl (args : List String)
  /-- `fs::copy(src, tgt)` was invoked. -/
  | copyFile (src tgt : Path)
  /-- `fs::remove_file(p)` was invoked. -/
  | removeFile (p : Path)
  /-- `dialoguer::Confirm::interact()` was invoked. -/
  | confirmPrompt
deriving DecidableEq

/-- Oracle for the outcomes of external effects.  `systemctl args = none`
means the spawn failed; `some b` means the process ran with success `b`.
`confirmOk` is whether `interact()` itself succeeded, `confirm` its answer.
The outcome of `fs::remove_file` needs no oracle entry: `uninstall` discards
it (`let _ = …`) without inspecting it. -/
structure Env where
  fs : List Path
  systemctl : List String → Option Bool
  copyOk : Path → Path → Bool
  confirmOk : Bool
  confirm : Bool

/-- `App::prepare_systemctl_args`: prepend `--user` for per-user scope. -/
def App.prepare_systemctl_args (a : App) (args : List String) : List String :=
  if a.use_user then "--user" :: args else args

/-- The four-valued status (`AppStatus` in `app.rs`). -/
inductive AppStatus where
  | NotInstalled
  | Installed
  | Stopped
  | Running
deriving DecidableEq

/-- `App::get_app_files`: walk `app_dir`, skipping directories and any file
named `config.toml`.  On the component-list model: the existing regular files
having `app_dir` as a component-wise prefix and not ending in `config.toml`.
Directories are not in `fs`, so the `is_dir` skip is implicit. -/
def App.get_app_files (a : App) (fs : List Path) : List Path :=
  fs.filter (fun p => (p.take a.app_dir.length == a.app_dir)
    && (p.getLast? != some configFileName))

/-- The manifest-derived target path of a source file: its path relative to
`app_dir`, re-rooted onto `systemd_dir` (`systemd_dir.join(strip_prefix …)`). -/
def App.target_path (a : App) (p : Path) : Path :=
  a.systemd_dir ++ p.drop a.app_dir.length

/-- `App::files_installed`: every walked file's target path must exist.  The
`none` branch of `stripUnder` is unreachable (the walk only yields paths under
`app_dir`; in Rust a failure there would propagate as an error). -/
def App.files_installed (a : App) (fs : List Path) : Bool :=
  (a.get_app_files fs).all (fun p =>
    match stripUnder a.app_dir p with
    | some rel => fs.contains (a.systemd_dir ++ rel)
    | none => true)

/-- Arguments of the `is-active` query issued by `get_status`. -/
def App.isActiveArgs (a : App) : List String :=
  a.prepare_systemctl_args ["is-active", "--quiet", a.name ++ ".service"]

/-- Arguments of the `is-enabled` query issued by `get_status`. -/
def App.isEnabledArgs (a : App) : List String :=
  a.prepare_systemctl_args ["is-enabled", "--quiet", a.name ++ ".service"]

/-- `App::get_status`.  Both queries use
`.status().map(|s| s.success()).unwrap_or(false)`: spawn failure and non-zero
exit alike become `false`, never an error. -/
def App.get_status (a : App) (env : Env) : AppStatus × List Event :=
  if !(a.files_installed env.fs) then (AppStatus.NotInstalled, [])
  else
    let is_active := (env.systemctl a.isActiveArgs).getD false
    if is_active then (AppStatus.Running, [Event.runSystemctl a.isActiveArgs])
    else
      let is_enabled := (env.systemctl a.isEnabledArgs).getD false
      ((if is_enabled then AppStatus.Stopped else AppStatus.Installed),
        [Event.runSystemctl a.isActiveArgs, Event.runSystemctl a.isEnabledArgs])

/-- The message of `bail!("No files found for app {}")`. -/
def emptyManifestMsg (name : String) : String := "No files found for app " ++ name

/-- The message of `bail!("File already exsists and force not used")` (sic). -/
def collisionMsg : String := "File already exsists and force not used"

/-- The collision pass of `App::install`: for each file compute its target
path and bail if it exists and `force` is unset.  No mutation happens here. -/
def App.collisionCheck (a : App) (fs : List Path) (force : Bool) :
    List Path → Option String
  | [] => none
  | f :: rest =>
    match stripUnder a.app_dir f with
    | none => some "strip_prefix failed"
    | some rel =>
      if fs.contains (a.systemd_dir ++ rel) && !force then some collisionMsg
      else a.collisionCheck fs force rest

/-- The copy pass of `App::install`: `fs::copy` each file to its target path,
aborting on the first failure (files already copied stay in place). -/
def App.copyFiles (a : App) (env : Env) : List Path → Except String Unit × List Event
  | [] => (Except.ok (), [])
  | f :: rest =>
    match stripUnder a.app_dir f with
    | none => (Except.error "strip_prefix failed", [])
    | some rel =>
      let tgt := a.systemd_dir ++ rel
      if env.copyOk f tgt then
        let r := a.copyFiles env rest
        (r.1, Event.copyFile f tgt :: r.2)
      else
        (Except.error ("Failed to copy " ++ String.intercalate "/" f ++ " to "
          ++ String.intercalate "/" tgt), [Event.copyFile f tgt])

/-- `App::install(dry_run, force)`.  After the copy phase the code invokes
`systemctl` with the literal argument `"daemon-relaod"` (a misspelling present
in the source) and then `start <name>.service`; for both, `.status()?` errors
only when the spawn fails — the exit status is discarded. -/
def App.install (a : App) (env : Env) (dry_run force : Bool) :
    Except String Unit × List Event :=
  let app_files := a.get_app_files env.fs
  if app_files.isEmpty then (Except.error (emptyManifestMsg a.name), [])
  else if dry_run then (Except.ok (), [])
  else
    match a.collisionCheck env.fs force app_files with
    | some e => (Except.error e, [])
    | none =>
      let copied := a.copyFiles env app_files
      match copied.1 with
      | Except.error e => (Except.error e, copied.2)
      | Except.ok _ =>
        let reloadArgs := a.prepare_systemctl_args ["daemon-relaod"]
        let evs := copied.2 ++ [Event.runSystemctl reloadArgs]
        match env.systemctl reloadArgs with
        | none => (Except.error "failed to run systemctl", evs)
        | some _ =>
          let startArgs := a.prepare_systemctl_args ["start", a.name ++ ".service"]
          let evs2 := evs ++ [Event.runSystemctl startArgs]
          match env.systemctl startArgs with
          | none => (Except.error "failed to run systemctl", evs2)
          | some _ => (Except.ok (), evs2)

/-- The post-confirmation phase of `App::uninstall`: best-effort `stop`
(result discarded with `let _ =`), then `fs::remove_file` on each walked file
— NOTE: on `file` itself, the path under `app_dir`, not on a target path —
with each result discarded, then `daemon-reload`, whose spawn failure alone
propagates. -/
def App.uninstallReal (a : App) (env : Env) (app_files : List Path) :
    Except String Unit × List Event :=
  let stopArgs := a.prepare_systemctl_args ["stop", a.name ++ ".service"]
  let removeEvs := app_files.map (fun f => Event.removeFile f)
  let reloadArgs := a.prepare_systemctl_args ["daemon-reload"]
  let evs := Event.runSystemctl stopArgs :: removeEvs ++ [Event.runSystemctl reloadArgs]
  match env.systemctl reloadArgs with
  | none =>
    (Except.error "Failed to reload systemd after stopping service and removing files", evs)
  | some _ => (Except.ok (), evs)

/-- `App::uninstall(dry_run, force)`. -/
def App.uninstall (a : App) (env : Env) (dry_run force : Bool) :
    Except String Unit × List Event :=
  let app_files := a.get_app_files env.fs
  if app_files.isEmpty then (Except.error (emptyManifestMsg a.name), [])
  else if dry_run then (Except.ok (), [])
  else if !force then
    if !env.confirmOk then (Except.error "Uninstall confirmation failed", [Event.confirmPrompt])
    else if !env.confirm then (Except.ok (), [Event.confirmPrompt])
    else
      let r := a.uninstallReal env app_files
      (r.1, Event.confirmPrompt :: r.2)
  else a.uninstallReal env app_files

/-! Sample concrete instances, used for evaluating the code at concrete
inputs. -/

/-- A concrete application: one unit file `webapp.service` in its source
tree, targeting `etc/systemd/system`, system scope. -/
def sampleApp : App :=
  { name := "webapp", app_dir := ["repo", "webapp"],
    systemd_dir := ["etc", "systemd", "system"], use_user := false }

/-- The unit file exists both in the source tree and at its installed target
path; every external command succeeds; confirmation answers yes. -/
def sampleEnvInstalled : Env :=
  { fs := [["repo", "webapp", "webapp.service"], ["repo", "webapp", "config.toml"],
           ["etc", "systemd", "system", "webapp.service"]],
    systemctl := fun _ => some true, copyOk := fun _ _ => true,
    confirmOk := true, confirm := true }

/-- The unit file exists only in the source tree (target directory empty). -/
def sampleEnvFresh : Env :=
  { fs := [["repo", "webapp", "webapp.service"], ["repo", "webapp", "config.toml"]],
    systemctl := fun _ => some true, copyOk := fun _ _ => true,
    confirmOk := true, confirm := true }

/-- Manifest fully installed, but every `systemctl` spawn fails. -/
def sampleEnvNoSystemd : Env :=
  { fs := [["repo", "webapp", "webapp.service"], ["repo", "webapp", "config.toml"],
           ["etc", "systemd", "system", "webapp.service"]],
    systemctl := fun _ => none, copyOk := fun _ _ => true,
    confirmOk := true, confirm := true }

/-- Fresh target, but every `systemctl` invocation runs and exits non-zero. -/
def sampleEnvUnitFailures : Env :=
  { fs := [["repo", "webapp", "webapp.service"], ["repo", "webapp", "config.toml"]],
    systemctl := fun _ => some false, copyOk := fun _ _ => true,
    confirmOk := true, confirm := true }

/-- The source tree holds only `config.toml`, so the manifest is empty. -/
def sampleEnvEmptyManifest : Env :=
  { fs := [["repo", "webapp", "config.toml"]],
    systemctl := fun _ => some true, copyOk := fun _ _ => true,
    confirmOk := true, confirm := true }

/-- Installed state, confirmation prompt succeeds and is answered "no". -/
def sampleEnvDecline : Env :=
  { fs := [["repo", "webapp", "webapp.service"], ["repo", "webapp", "config.toml"],
           ["etc", "systemd", "system", "webapp.service"]],
    systemctl := fun _ => some true, copyOk := fun _ _ => true,
    confirmOk := true, confirm := false }

/-- Concrete ambient process state for `App.new`: the config file is readable
exactly at `home/webapp/config.toml`, and the executable lives at
`home/units`. -/
def sampleSys : SysEnv :=
  { cwd := ["home"], exe_path := ["home", "units"],
    readConfig := fun p =>
      if p == ["home", "webapp", configFileName] then
        some { install_location := ["etc", "systemd", "system"], use_user := false }
      else none }

/-! Helper lemmas about the manifest walk. -/

/-- Every manifest entry is an existing file whose path has `app_dir` as a
component-wise prefix. -/
theorem mem_app_files {a : App} {fs : List Path} {p : Path}
    (h : p ∈ a.get_app_files fs) :
    p ∈ fs ∧ p.take a.app_dir.length = a.app_dir := by
  have h1 := List.mem_filter.mp h
  refine ⟨h1.1, ?_⟩
  have h2 := h1.2
  simp only [Bool.and_eq_true, beq_iff_eq] at h2
  exact h2.1

/-- `strip_prefix` cannot fail on a manifest entry. -/
theorem stripUnder_of_mem {a : App} {fs : List Path} {p : Path}
    (h : p ∈ a.get_app_files fs) :
    stripUnder a.app_dir p = some (p.drop a.app_dir.length) := by
  have h2 := (mem_app_files h).2
  simp [stripUnder, h2]

/-- The collision pass without `force` reports the collision message whenever
some file's target path already exists. -/
theorem collisionCheck_finds (a : App) (fs : List Path) :
    ∀ l : List Path, (∀ p ∈ l, p.take a.app_dir.length = a.app_dir) →
      (∃ p ∈ l, (a.systemd_dir ++ p.drop a.app_dir.length) ∈ fs) →
      a.collisionCheck fs false l = some collisionMsg := by
  intro l
  induction l with
  | nil => intro _ hex; simp at hex
  | cons f rest ih =>
    intro hpre hex
    have hf : stripUnder a.app_dir f = some (f.drop a.app_dir.length) := by
      simp [stripUnder, hpre f (by simp)]
    simp only [App.collisionCheck, hf, Bool.not_false, Bool.and_true]
    by_cases hc : fs.contains (a.systemd_dir ++ f.drop a.app_dir.length) = true
    · rw [if_pos hc]
    · rw [if_neg hc]
      rcases hex with ⟨p, hp, hmem⟩
      rcases List.mem_cons.mp hp with rfl | hp2
      · exact absurd (by simpa using hmem) hc
      · exact ih (fun q hq => hpre q (List.mem_cons_of_mem f hq)) ⟨p, hp2, hmem⟩

/-! Claim theorems. -/

/-- Claim C3: a real, non-forced install on a target directory where at least
one manifest file's target path already exists aborts with the collision
error and emits no events at all — in particular it copies zero files —
regardless of where the colliding entry sits in the manifest. -/
theorem install_collision_aborts (a : App) (env : Env)
    (hcol : ∃ p ∈ a.get_app_files env.fs, a.target_path p ∈ env.fs) :
    a.install env false false = (Except.error collisionMsg, []) := by
  obtain ⟨p, hp, hmem⟩ := hcol
  have hne : (a.get_app_files env.fs).isEmpty = false := by
    simpa using List.ne_nil_of_mem hp
  have hcheck : a.collisionCheck env.fs false (a.get_app_files env.fs) = some collisionMsg :=
    collisionCheck_finds a env.fs _ (fun q hq => (mem_app_files hq).2) ⟨p, hp, hmem⟩
  simp [App.install, hne, hcheck]

/-- Witness for C3: the collision is detected for the concrete sample app
whose single unit file is already present at its target path. -/
theorem install_collision_aborts_witness :
    sampleApp.install sampleEnvInstalled false false = (Except.error collisionMsg, []) :=
  install_collision_aborts sampleApp sampleEnvInstalled
    ⟨["repo", "webapp", "webapp.service"], by decide, by decide⟩

/-- Claim C4: when at least one manifest entry's target path is missing under
the target directory, `get_status` returns `NotInstalled` with an empty event
trace — the service manager is never queried, whatever its state would be. -/
theorem get_status_notInstalled_short_circuits (a : App) (env : Env)
    (hmiss : ∃ p ∈ a.get_app_files env.fs, ¬ a.target_path p ∈ env.fs) :
    a.get_status env = (AppStatus.NotInstalled, []) := by
  obtain ⟨p, hp, hmem⟩ := hmiss
  have hfi : a.files_installed env.fs = false := by
    unfold App.files_installed
    simp only [List.all_eq_false]
    refine ⟨p, hp, ?_⟩
    rw [stripUnder_of_mem hp]
    simpa using hmem
  simp [App.get_status, hfi]

/-- Witness for C4: the fresh sample environment (target directory empty)
yields `NotInstalled` and no systemctl invocation. -/
theorem get_status_notInstalled_witness :
    sampleApp.get_status sampleEnvFresh = (AppStatus.NotInstalled, []) :=
  get_status_notInstalled_short_circuits sampleApp sampleEnvFresh
    ⟨["repo", "webapp", "webapp.service"], by decide, by decide⟩

/-- Claim C7: with an empty manifest, `install` fails with the empty-manifest
error for every combination of `dry_run` and `force`, emitting no events
(no filesystem and no service-manager mutation). -/
theorem install_empty_manifest_fails (a : App) (env : Env) (dry_run force : Bool)
    (h : a.get_app_files env.fs = []) :
    a.install env dry_run force = (Except.error (emptyManifestMsg a.name), []) := by
  simp [App.install, h]

/-- Witness for C7: the sample source tree holding only `config.toml`. -/
theorem install_empty_manifest_witness :
    sampleApp.install sampleEnvEmptyManifest true true
      = (Except.error (emptyManifestMsg sampleApp.name), []) :=
  install_empty_manifest_fails sampleApp sampleEnvEmptyManifest true true (by decide)

/-- Claim C5: with the manifest fully present, the status is `Running` when
the unit is active (whatever `is-enabled` would answer), `Stopped` when it is
not active but enabled, and `Installed` when it is neither: exactly one
outcome, with active taking precedence over enabled. -/
theorem get_status_active_precedence (a : App) (env : Env) (act en : Bool)
    (hinst : a.files_installed env.fs = true)
    (hact : env.systemctl a.isActiveArgs = some act)
    (hen : env.systemctl a.isEnabledArgs = some en) :
    (a.get_status env).1 =
      (if act then AppStatus.Running
       else if en then AppStatus.Stopped
       else AppStatus.Installed) := by
  cases act <;> cases en <;> simp [App.get_status, hinst, hact, hen]

/-- Witness for C5: installed sample app, unit active (and enabled):
status is `Running`. -/
theorem get_status_active_precedence_witness :
    (sampleApp.get_status sampleEnvInstalled).1 =
      (if true then AppStatus.Running
       else if true then AppStatus.Stopped
       else AppStatus.Installed) :=
  get_status_active_precedence sampleApp sampleEnvInstalled true true (by decide) rfl rfl

/-- Claim C6: whenever neither query answers `some true` — covering both a
spawn failure (`none`, the external command unreachable) and a non-zero exit
(`some false`) — the failures are read as `false` and the status of a
manifest-present application degrades to `Installed`; no error is produced
(`get_status`'s result type carries none). -/
theorem get_status_query_failures_degrade (a : App) (env : Env)
    (hinst : a.files_installed env.fs = true)
    (hact : env.systemctl a.isActiveArgs ≠ some true)
    (hen : env.systemctl a.isEnabledArgs ≠ some true) :
    (a.get_status env).1 = AppStatus.Installed := by
  have h1 : (env.systemctl a.isActiveArgs).getD false = false := by
    cases hx : env.systemctl a.isActiveArgs with
    | none => rfl
    | some b =>
      cases b
      · rfl
      · exact absurd hx hact
  have h2 : (env.systemctl a.isEnabledArgs).getD false = false := by
    cases hx : env.systemctl a.isEnabledArgs with
    | none => rfl
    | some b =>
      cases b
      · rfl
      · exact absurd hx hen
  simp [App.get_status, hinst, h1, h2]

/-- Witness for C6: installed sample app with every systemctl spawn failing:
status degrades to `Installed`. -/
theorem get_status_query_failures_witness :
    (sampleApp.get_status sampleEnvNoSystemd).1 = AppStatus.Installed :=
  get_status_query_failures_degrade sampleApp sampleEnvNoSystemd (by decide)
    (by decide) (by decide)

/-- Claim C8: a real, non-forced uninstall whose confirmation prompt succeeds
and is answered "no" returns success, and the only event is the prompt
itself: no stop, no removal, no daemon-reload — filesystem and
service-manager state are untouched. -/
theorem uninstall_declined_confirmation_noop (a : App) (env : Env)
    (hne : a.get_app_files env.fs ≠ [])
    (hok : env.confirmOk = true) (hno : env.confirm = false) :
    a.uninstall env false false = (Except.ok (), [Event.confirmPrompt]) := by
  have h1 : (a.get_app_files env.fs).isEmpty = false := by simpa using hne
  simp [App.uninstall, h1, hok, hno]

/-- Witness for C8: the sample app with a declined confirmation. -/
theorem uninstall_declined_confirmation_witness :
    sampleApp.uninstall sampleEnvDecline false false = (Except.ok (), [Event.confirmPrompt]) :=
  uninstall_declined_confirmation_noop sampleApp sampleEnvDecline (by decide) rfl rfl

/-- Claim C9: a dry-run uninstall returns success with an empty event trace
for either value of `force` — the dry-run branch is taken before the
confirmation check, so no prompt, no filesystem and no service-manager
mutation occurs. -/
theorem uninstall_dry_run_noop (a : App) (env : Env) (force : Bool)
    (hne : a.get_app_files env.fs ≠ []) :
    a.uninstall env true force = (Except.ok (), []) := by
  have h1 : (a.get_app_files env.fs).isEmpty = false := by simpa using hne
  simp [App.uninstall, h1]

/-- Witness for C9: dry-run uninstall of the installed sample app with
`force = false` performs nothing, prompts for nothing. -/
theorem uninstall_dry_run_witness :
    sampleApp.uninstall sampleEnvInstalled true false = (Except.ok (), []) :=
  uninstall_dry_run_noop sampleApp sampleEnvInstalled false (by decide)

/-- Claim C1 (evaluating the code at the failing input): a real, forced
uninstall of the sample app removes the SOURCE path
`repo/webapp/webapp.service` — the walked file itself — and never removes the
manifest-derived target path `etc/systemd/system/webapp.service`, while still
attempting the stop and the final daemon-reload.  The claim (and the spec)
require the manifest-derived target paths to be removed. -/
theorem uninstall_removes_source_paths_not_targets :
    sampleApp.uninstall sampleEnvInstalled false true =
      (Except.ok (),
        [Event.runSystemctl ["stop", "webapp.service"],
         Event.removeFile ["repo", "webapp", "webapp.service"],
         Event.runSystemctl ["daemon-reload"]]) ∧
    Event.removeFile (sampleApp.target_path ["repo", "webapp", "webapp.service"])
      ∉ (sampleApp.uninstall sampleEnvInstalled false true).2 := by
  constructor
  · rfl
  · decide

/-- Claim C2 (evaluating the code at the failing input): after a successful
copy phase, `install` invokes `systemctl` with the misspelled literal
argument `daemon-relaod` and never with `daemon-reload`, so the unit cache is
not reloaded; and in an environment where every systemctl invocation runs but
exits non-zero, `install` still returns success — a non-zero exit of the
reload or start is not propagated (only a spawn failure would be). -/
theorem install_invokes_misspelled_reload :
    (sampleApp.install sampleEnvFresh false false).1 = Except.ok () ∧
    Event.runSystemctl ["daemon-relaod"] ∈ (sampleApp.install sampleEnvFresh false false).2 ∧
    Event.runSystemctl ["daemon-reload"] ∉ (sampleApp.install sampleEnvFresh false false).2 ∧
    (sampleApp.install sampleEnvUnitFailures false false).1 = Except.ok () := by
  exact ⟨rfl, by decide, by decide, rfl⟩

/-- Claim C10: a successful `App.new` has read the configuration from
`<cwd>/<name>/config.toml` (the relative path resolved against the working
directory), while the source directory is `<dir of executable>/<name>`; the
configuration's directory and the source directory coincide exactly when the
working directory equals the executable's directory. -/
theorem app_new_config_vs_source_dir (sys : SysEnv) (name : String) (app : App)
    (h : App.new sys name = Except.ok app) :
    (sys.readConfig (sys.cwd ++ [name, configFileName])).isSome = true ∧
    app.app_dir = sys.exe_path.dropLast ++ [name] ∧
    (sys.cwd ++ [name] = app.app_dir ↔ sys.cwd = sys.exe_path.dropLast) := by
  unfold App.new at h
  cases hc : sys.readConfig (sys.cwd ++ [name, configFileName]) with
  | none => rw [hc] at h; simp at h
  | some config =>
    rw [hc] at h
    unfold parentPath at h
    by_cases he : sys.exe_path.isEmpty
    · rw [if_pos he] at h; simp at h
    · rw [if_neg he] at h
      simp only [Except.ok.injEq] at h
      subst h
      refine ⟨by simp, rfl, ?_⟩
      simp

/-- Witness for C10: a concrete ambient state where construction succeeds. -/
theorem app_new_config_vs_source_dir_witness :
    (sampleSys.readConfig (sampleSys.cwd ++ ["webapp", configFileName])).isSome = true ∧
    ({ name := "webapp", app_dir := ["home", "webapp"],
       systemd_dir := ["etc", "systemd", "system"], use_user := false } : App).app_dir
      = sampleSys.exe_path.dropLast ++ ["webapp"] ∧
    (sampleSys.cwd ++ ["webapp"] =
        ({ name := "webapp", app_dir := ["home", "webapp"],
           systemd_dir := ["etc", "systemd", "system"], use_user := false } : App).app_dir
      ↔ sampleSys.cwd = sampleSys.exe_path.dropLast) :=
  app_new_config_vs_source_dir sampleSys "webapp"
    { name := "webapp", app_dir := ["home", "webapp"],
      systemd_dir := ["etc", "systemd", "system"], use_user := false } rfl

end Units
